import Mathlib

/-!
Verification of the inputmaster keyboard-to-controller mapper.

This file gives a shallow embedding of the routing/session core of the
program (src/mapping.rs, src/controller.rs, src/device.rs, src/ui.rs) and
proves or refutes the specification claims about it.

Conventions of the embedding:
- evdev key codes and button codes are `Nat` (KeyCode wraps a u16).
- `InputEvent` is the (type, code, value) triple crossing every boundary.
- `HashMap<KeyCode, KeyCode>` becomes an association list with
  first-match lookup and overwrite-on-insert (`lookupKey` / `insertKey`);
  `HashSet<KeyCode>` becomes a duplicate-free-by-construction `List Nat`
  (`insertSet`).
- Sinks are modelled as recorders: an emission appends to an output list.
- The worker thread of `start_mapping` is modelled as a function of the
  sequence of observations it makes (loop-condition reads, select! branch
  taken, fetch_events results), producing its outputs, its `Result`, and
  whether `ungrab()` was executed.
-/

deriving instance DecidableEq for Except

/-- The (event-type, code, value) triple of an evdev input event. -/
structure InputEvent where
  etype : Nat
  code  : Nat
  value : Int
deriving DecidableEq, Repr

/-- evdev `EventType::KEY` (EV_KEY = 0x01). -/
def EV_KEY : Nat := 1

/-- `HashMap::get` on the association-list model: first matching key wins. -/
def lookupKey : List (Nat × Nat) → Nat → Option Nat
  | [], _ => none
  | (a, b) :: rest, k => if a = k then some b else lookupKey rest k

/-- `HashMap::insert` on the association-list model: overwrite the key. -/
def insertKey (m : List (Nat × Nat)) (k v : Nat) : List (Nat × Nat) :=
  (k, v) :: m.filter (fun p => p.1 != k)

/-- `HashSet::insert` on the list model: add the element if absent. -/
def insertSet (s : List Nat) (k : Nat) : List Nat :=
  if k ∈ s then s else s ++ [k]

/-- The keys of an association-list map (`HashMap::keys`). -/
def mapKeys (m : List (Nat × Nat)) : List Nat :=
  m.map Prod.fst

/-!
## controller.rs — VirtualController
-/

/-- The state of a `VirtualController` relevant to routing: its name and
its `key_mapping : HashMap<KeyCode, KeyCode>` (source key -> target
button). The uinput device itself is modelled by recording emissions. -/
structure VirtualControllerState where
  name : String
  key_mapping : List (Nat × Nat)
deriving DecidableEq, Repr

/-- `VirtualController::handle_key_event` (controller.rs:86-94): look the
argument up in `key_mapping`; on a hit emit one EV_KEY event carrying the
mapped code and the given value; on a miss do nothing. Returns the list of
events emitted on the controller's device. -/
def handle_key_event (mapping : List (Nat × Nat)) (key_code : Nat) (value : Int) :
    List InputEvent :=
  match lookupKey mapping key_code with
  | some controller_key => [⟨EV_KEY, controller_key, value⟩]
  | none => []

/-- `VirtualController::handle_key_event` with the fallibility of
`device.emit` made explicit: `emitOk` says whether the underlying uinput
write succeeds when attempted. On a lookup miss no write is attempted and
the function returns `Ok(())` with no emission. -/
def handle_key_event_r (mapping : List (Nat × Nat)) (key_code : Nat) (value : Int)
    (emitOk : Bool) : Except String (List InputEvent) :=
  match lookupKey mapping key_code with
  | some controller_key =>
      if emitOk then .ok [⟨EV_KEY, controller_key, value⟩] else .error "emit failed"
  | none => .ok []

/-- `VirtualController::apply_default_mapping` (controller.rs:44-84),
with the concrete Linux input-event codes: KEY_W=17, KEY_S=31, KEY_A=30,
KEY_D=32, KEY_UP=103, KEY_DOWN=108, KEY_LEFT=105, KEY_RIGHT=106, KEY_J=36,
KEY_K=37, KEY_U=22, KEY_I=23, KEY_Q=16, KEY_E=18, KEY_TAB=15,
KEY_ENTER=28, KEY_SPACE=57; BTN_SOUTH=304, BTN_EAST=305, BTN_NORTH=307,
BTN_WEST=308, BTN_TL=310, BTN_TR=311, BTN_SELECT=314, BTN_START=315,
BTN_MODE=316, BTN_DPAD_UP=544, BTN_DPAD_DOWN=545, BTN_DPAD_LEFT=546,
BTN_DPAD_RIGHT=547. -/
def apply_default_mapping : List (Nat × Nat) :=
  [(17, 544), (31, 545), (30, 546), (32, 547), (103, 544), (108, 545),
   (105, 546), (106, 547), (36, 304), (37, 305), (22, 307), (23, 308),
   (16, 310), (18, 311), (15, 314), (28, 315), (57, 316)].foldl
    (fun m p => insertKey m p.1 p.2) []

/-- `VirtualController::get_available_button_mappings`
(controller.rs:96-114): the ordered 15-entry button catalog. -/
def get_available_button_mappings : List (Nat × String) :=
  [(304, "A Button"), (305, "B Button"), (307, "X Button"), (308, "Y Button"),
   (310, "Left Shoulder"), (311, "Right Shoulder"), (314, "Select Button"),
   (315, "Start Button"), (316, "Guide Button"), (317, "Left Thumb"),
   (318, "Right Thumb"), (544, "D-Pad Up"), (545, "D-Pad Down"),
   (546, "D-Pad Left"), (547, "D-Pad Right")]

/-!
## mapping.rs — DeviceMapper state and lifecycle
-/

/-- The control-thread state of `DeviceMapper` (mapping.rs:15-20): the
registered controllers, the shared `running` flag, and the shared
`mapped_keys : HashSet<KeyCode>` accumulated by `add_controller`. -/
structure DeviceMapperState where
  controllers : List VirtualControllerState
  running : Bool
  mapped_keys : List Nat
deriving DecidableEq, Repr

/-- `DeviceMapper::new` (mapping.rs:23-30). -/
def DeviceMapper_new : DeviceMapperState :=
  ⟨[], false, []⟩

/-- `DeviceMapper::add_controller` (mapping.rs:32-40): insert every key of
the controller's current mapping into the shared `mapped_keys` set, then
push the controller. -/
def add_controller (m : DeviceMapperState) (c : VirtualControllerState) :
    DeviceMapperState :=
  { controllers := m.controllers ++ [c],
    running := m.running,
    mapped_keys := (mapKeys c.key_mapping).foldl insertSet m.mapped_keys }

/-- The per-session snapshot `controller_settings` cloned by
`start_mapping` (mapping.rs:52-59) before the worker is spawned. -/
structure SessionSnapshot where
  controller_settings : List (String × List (Nat × Nat))
deriving DecidableEq, Repr

/-- Errors `start_mapping` can return to its caller. The source has a
single anyhow error "No controllers available to map" (mapping.rs:45);
there is no already-running check in the source. -/
inductive StartError where
  | NoControllers
deriving DecidableEq, Repr

/-- `DeviceMapper::start_mapping` up to the spawn (mapping.rs:42-63):
fail if no controller is registered; otherwise clone the controller
settings, set the shared `running` flag to true and hand the snapshot to
the worker. The returned pair is (state after start, snapshot owned by the
spawned worker); returning `.ok` corresponds to the worker thread being
spawned and its `JoinHandle` returned. -/
def start_mapping (m : DeviceMapperState) :
    Except StartError (DeviceMapperState × SessionSnapshot) :=
  if m.controllers.isEmpty then
    .error .NoControllers
  else
    .ok ({ m with running := true },
         ⟨m.controllers.map (fun c => (c.name, c.key_mapping))⟩)

/-- `DeviceMapper::stop_mapping` (mapping.rs:195-198): clear the shared
`running` flag (the sleep only gives the worker time to observe it). -/
def stop_mapping (m : DeviceMapperState) : DeviceMapperState :=
  { m with running := false }

/-- A post-start mutation of a registered controller's mapping: insert
`src -> tgt` into the mapping of controller `i` of the live state. This is
the only mutation of a controller's `key_mapping` the program performs
(ui.rs:157); it does not touch the shared `mapped_keys` set, whose sole
writer is `add_controller`. -/
def mutateControllers : List VirtualControllerState → Nat → Nat → Nat →
    List VirtualControllerState
  | [], _, _, _ => []
  | c :: cs, 0, src, tgt =>
      { c with key_mapping := insertKey c.key_mapping src tgt } :: cs
  | c :: cs, Nat.succ i, src, tgt => c :: mutateControllers cs i src tgt

/-- Mutating controller `i`'s mapping in the live `DeviceMapper` state
after a session has started. -/
def mutate_controller_mapping (m : DeviceMapperState) (i src tgt : Nat) :
    DeviceMapperState :=
  { m with controllers := mutateControllers m.controllers i src tgt }

/-!
## mapping.rs — the worker thread
-/

/-- The worker recreates its controllers from the snapshot
(mapping.rs:96-109): each one starts with an empty mapping into which the
cloned settings are inserted pair by pair. -/
def workerControllers (snap : SessionSnapshot) : List (List (Nat × Nat)) :=
  snap.controller_settings.map
    (fun p => p.2.foldl (fun m q => insertKey m q.1 q.2) [])

/-- One controller's reaction to a claimed key event in the dispatch loop
(mapping.rs:151-159): look the physical key up in the controller's
mapping; if it maps to `target_key`, call `handle_key_event target_key
value` — which performs a second lookup of `target_key` in the same
source-to-target mapping. -/
def controllerReaction (mapping : List (Nat × Nat)) (key_code : Nat) (value : Int) :
    List InputEvent :=
  match lookupKey mapping key_code with
  | some target_key => handle_key_event mapping target_key value
  | none => []

/-- The emissions of all worker controllers for one claimed key event,
tagged with the controller's index (the loop at mapping.rs:151-160 visits
the controllers in order). -/
def controllerEmissionsFrom (i : Nat) (cs : List (List (Nat × Nat)))
    (key_code : Nat) (value : Int) : List (Nat × InputEvent) :=
  match cs with
  | [] => []
  | mapping :: rest =>
      (controllerReaction mapping key_code value).map (fun e => (i, e)) ++
        controllerEmissionsFrom (i + 1) rest key_code value

/-- Dispatch of one physical event (mapping.rs:145-171). Returns
(controller-sink emissions, keyboard-sink emissions). A key event whose
code is in `mapped_keys` goes to the controllers; any other key event is
rebuilt as `InputEvent::new(EventType::KEY.0, key_code.0, value)` and
forwarded to the virtual keyboard; a non-key event is forwarded verbatim. -/
def processEvent (mapped_keys : List Nat) (cs : List (List (Nat × Nat)))
    (ev : InputEvent) : List (Nat × InputEvent) × List InputEvent :=
  if ev.etype = EV_KEY then
    if ev.code ∈ mapped_keys then
      (controllerEmissionsFrom 0 cs ev.code ev.value, [])
    else
      ([], [⟨EV_KEY, ev.code, ev.value⟩])
  else
    ([], [ev])

/-- Dispatch of a batch of physical events in stream order. -/
def dispatchEvents (mapped_keys : List Nat) (cs : List (List (Nat × Nat))) :
    List InputEvent → List (Nat × InputEvent) × List InputEvent
  | [] => ([], [])
  | ev :: rest =>
      ((processEvent mapped_keys cs ev).1 ++ (dispatchEvents mapped_keys cs rest).1,
       (processEvent mapped_keys cs ev).2 ++ (dispatchEvents mapped_keys cs rest).2)

/-- One observation of the worker's main loop (mapping.rs:129-175): the
`while` condition reading the shared flag, the `select!` branch taken, and
the outcome of `fetch_events` in the default branch. -/
inductive LoopEvent where
  /-- the `while *running.lock()` condition observes `false`. -/
  | stopFlag
  /-- the `signal_rx` branch fires: break out of the loop. -/
  | signal
  /-- the ticker branch fires and observes `running == false`: break. -/
  | tickStop
  /-- the ticker branch fires, `running` still true: next iteration. -/
  | tickCont
  /-- `fetch_events` returns `Err`: the `?` propagates it out of the
  worker closure at once. -/
  | fetchErr
  /-- `fetch_events` returns a batch of events, processed in order. -/
  | fetchOk (evs : List InputEvent)
deriving DecidableEq, Repr

/-- The observable outcome of one worker-thread run: whether its `Result`
was `Ok`, whether `ungrab()` was executed, and the two sink traces. -/
structure WorkerResult where
  resultOk : Bool
  ungrab_called : Bool
  ctrl : List (Nat × InputEvent)
  kbd : List InputEvent
deriving DecidableEq, Repr

/-- The worker's main loop followed by the tail of the closure
(mapping.rs:129-181): a normal exit from the loop executes the
`keyboard.ungrab()` at mapping.rs:178 and returns `Ok(())`, while an `Err`
from `fetch_events` leaves the closure through the `?` at mapping.rs:145,
skipping the ungrab. An exhausted script means the flag was observed
false. -/
def runLoop (mapped_keys : List Nat) (cs : List (List (Nat × Nat))) :
    List LoopEvent → WorkerResult
  | [] => ⟨true, true, [], []⟩
  | .stopFlag :: _ => ⟨true, true, [], []⟩
  | .signal :: _ => ⟨true, true, [], []⟩
  | .tickStop :: _ => ⟨true, true, [], []⟩
  | .tickCont :: rest => runLoop mapped_keys cs rest
  | .fetchErr :: _ => ⟨false, false, [], []⟩
  | .fetchOk evs :: rest =>
      let r := dispatchEvents mapped_keys cs evs
      let tail := runLoop mapped_keys cs rest
      ⟨tail.resultOk, tail.ungrab_called, r.1 ++ tail.ctrl, r.2 ++ tail.kbd⟩

/-- The whole worker closure (mapping.rs:89-190): `Device::open` may fail
(`openOk`), then `grab()` may fail (`grabOk`, the Err arm at
mapping.rs:183-186 returns the error without any dispatch), then the main
loop runs. -/
def worker (openOk grabOk : Bool) (mapped_keys : List Nat)
    (cs : List (List (Nat × Nat))) (script : List LoopEvent) : WorkerResult :=
  if openOk = false then ⟨false, false, [], []⟩
  else if grabOk = false then ⟨false, false, [], []⟩
  else runLoop mapped_keys cs script

/-!
## device.rs — keyboard discovery
-/

/-- What `InputDevice::is_keyboard` examines of an enumerated evdev
device: its supported-key set, when the device reports one. -/
structure EnumeratedDevice where
  supported_keys : Option (List Nat)
deriving DecidableEq, Repr

/-- The `essential_modifiers` array of device.rs:30-34:
KEY_LEFTCTRL=29, KEY_LEFTSHIFT=42, KEY_LEFTALT=56. -/
def essential_modifiers : List Nat := [29, 42, 56]

/-- The counting loop of device.rs:37-42. -/
def modifier_count (keys : List Nat) : Nat :=
  essential_modifiers.foldl (fun n k => if k ∈ keys then n + 1 else n) 0

/-- `InputDevice::is_keyboard` (device.rs:27-53): a device with no
reported key set is not a keyboard; otherwise it is one exactly when it
misses none of the three essential modifiers. -/
def is_keyboard (d : EnumeratedDevice) : Bool :=
  match d.supported_keys with
  | some keys =>
      if modifier_count keys < essential_modifiers.length then false else true
  | none => false

/-- Modelled from the spec: the error enum of src/error.rs is not among
the sources; only the `NoKeyboardsFound` variant, which device.rs:68
names, is needed here ("`NoKeyboardsFound` (discovery phase, external)"). -/
inductive AppError where
  | NoKeyboardsFound
deriving DecidableEq, Repr

/-- `discover_keyboards` (device.rs:56-72): keep the enumerated devices
classified as keyboards; fail with `NoKeyboardsFound` when none qualify. -/
def discover_keyboards (devices : List EnumeratedDevice) :
    Except AppError (List EnumeratedDevice) :=
  let keyboards := devices.filter is_keyboard
  if keyboards.isEmpty then .error .NoKeyboardsFound else .ok keyboards

/-!
## mapping.rs / ui.rs — interactive capture
-/

/-- `DeviceMapper::capture_key` (mapping.rs:200-234) as a function of the
physical device's event sequence: scan for the first key event whose value
is exactly 1 and return its code. `none` models the call never returning
because no qualifying press arrives. -/
def capture_key (evs : List InputEvent) : Option Nat :=
  (evs.find? (fun e => e.etype == EV_KEY && e.value == 1)).map InputEvent.code

/-- `UI::map_controller_buttons` (ui.rs:136-158): walk the ordered prompt
list; for each prompted button capture a key from the device (each prompt
consumes one event sequence) and record `source_key -> target_button` in
the controller's mapping. `none` models a capture that never returns. -/
def map_controller_buttons (prompts : List (Nat × String))
    (streams : List (List InputEvent)) (mapping : List (Nat × Nat)) :
    Option (List (Nat × Nat)) :=
  match prompts, streams with
  | [], _ => some mapping
  | _ :: _, [] => none
  | (button_code, _) :: bs, s :: ss =>
      match capture_key s with
      | some key_code =>
          map_controller_buttons bs ss (insertKey mapping key_code button_code)
      | none => none

/-!
## Derived notions used to state the claims
-/

/-- "Some registered controller's mapping contains key `k`"
(the claims' notion of a claimed source key). -/
def anyControllerClaims (cs : List VirtualControllerState) (k : Nat) : Bool :=
  cs.any (fun c => (lookupKey c.key_mapping k).isSome)

/-- The `mapped_keys` set agrees with the union of the registered
controllers' mappings — the invariant `add_controller` maintains as long
as mappings are not mutated between registration and `start`. -/
def mapperInvariant (m : DeviceMapperState) : Prop :=
  ∀ k, k ∈ m.mapped_keys ↔ anyControllerClaims m.controllers k = true

/-- What the running worker computes from what it can still observe: the
live shared `mapped_keys` set and the snapshot of controller settings
taken at `start` (the worker's own recreated controllers). -/
def sessionOutputs (live : DeviceMapperState) (snap : SessionSnapshot)
    (evs : List InputEvent) : List (Nat × InputEvent) × List InputEvent :=
  dispatchEvents live.mapped_keys (workerControllers snap) evs

/-!
## Concrete fixtures (the spec's own scenarios)
-/

/-- "Controller 1" with the default WASD mapping (main.rs:42-50). -/
def controller1 : VirtualControllerState :=
  ⟨"Controller 1", apply_default_mapping⟩

/-- A mapper with "Controller 1" registered. -/
def exMapper : DeviceMapperState :=
  add_controller DeviceMapper_new controller1

/-- `exMapper` after `start_mapping` set the running flag. -/
def exStarted : DeviceMapperState :=
  { exMapper with running := true }

/-- The snapshot `start_mapping` hands to the worker for `exMapper`. -/
def exSnap : SessionSnapshot :=
  ⟨[("Controller 1", apply_default_mapping)]⟩

/-- `exMapper` while a session is already running (not Idle). -/
def exRunning : DeviceMapperState :=
  { exMapper with running := true }

/-- Two controllers both claiming source key KEY_W=17 (broadcast
fan-out): one maps it to BTN_DPAD_UP=544, the other to BTN_SOUTH=304. -/
def exMapperTwo : DeviceMapperState :=
  add_controller (add_controller DeviceMapper_new ⟨"Controller 1", [(17, 544)]⟩)
    ⟨"Controller 2", [(17, 304)]⟩

/-- The snapshot of `exMapperTwo`'s session. -/
def exSnapTwo : SessionSnapshot :=
  ⟨[("Controller 1", [(17, 544)]), ("Controller 2", [(17, 304)])]⟩

/-- A capture stream: a release of W (value 0), a non-key event, an
auto-repeat of W (value 2), then a press of KEY_J=36 (value 1). -/
def exCaptureStream : List InputEvent :=
  [⟨EV_KEY, 17, 0⟩, ⟨4, 4, 99⟩, ⟨EV_KEY, 17, 2⟩, ⟨EV_KEY, 36, 1⟩]

/-- A key event whose code is in the worker's `mapped_keys` set — the
routing condition of mapping.rs:146-150. -/
def claimedEvent (mk : List Nat) (e : InputEvent) : Bool :=
  decide (e.etype = EV_KEY) && decide (e.code ∈ mk)

/-!
## Helper lemmas
-/

theorem mem_insertSet {s : List Nat} {a k : Nat} :
    k ∈ insertSet s a ↔ k ∈ s ∨ k = a := by
  unfold insertSet
  by_cases h : a ∈ s
  · rw [if_pos h]
    constructor
    · exact Or.inl
    · rintro (hk | rfl)
      · exact hk
      · exact h
  · rw [if_neg h]
    simp [List.mem_append]

theorem mem_foldl_insertSet (l s : List Nat) (k : Nat) :
    k ∈ l.foldl insertSet s ↔ k ∈ s ∨ k ∈ l := by
  induction l generalizing s with
  | nil => simp
  | cons a t ih =>
      rw [List.foldl_cons, ih (insertSet s a)]
      simp only [mem_insertSet, List.mem_cons]
      tauto

theorem lookup_isSome_iff (m : List (Nat × Nat)) (k : Nat) :
    (lookupKey m k).isSome = true ↔ k ∈ mapKeys m := by
  induction m with
  | nil => simp [lookupKey, mapKeys]
  | cons p t ih =>
      obtain ⟨a, b⟩ := p
      by_cases h : a = k
      · subst h
        simp [lookupKey, mapKeys]
      · simp only [lookupKey, mapKeys, List.map_cons, List.mem_cons, if_neg h]
        rw [ih]
        unfold mapKeys
        constructor
        · exact Or.inr
        · rintro (rfl | hk)
          · exact absurd rfl h
          · exact hk

theorem mapperInvariant_new : mapperInvariant DeviceMapper_new := by
  intro k
  simp [DeviceMapper_new, anyControllerClaims]

theorem mapperInvariant_add (m : DeviceMapperState) (c : VirtualControllerState)
    (h : mapperInvariant m) : mapperInvariant (add_controller m c) := by
  intro k
  have h1 : k ∈ (add_controller m c).mapped_keys ↔
      k ∈ m.mapped_keys ∨ k ∈ mapKeys c.key_mapping :=
    mem_foldl_insertSet _ _ _
  have h2 : anyControllerClaims (add_controller m c).controllers k = true ↔
      anyControllerClaims m.controllers k = true ∨
        (lookupKey c.key_mapping k).isSome = true := by
    simp [add_controller, anyControllerClaims]
  rw [h1, h2, h k, lookup_isSome_iff]

theorem claimed_decide (m : DeviceMapperState) (hinv : mapperInvariant m) (k : Nat) :
    decide (k ∈ m.mapped_keys) = anyControllerClaims m.controllers k := by
  by_cases hk : k ∈ m.mapped_keys
  · rw [decide_eq_true hk, ((hinv k).mp hk).symm]
  · have hc : anyControllerClaims m.controllers k = false := by
      cases ha : anyControllerClaims m.controllers k
      · rfl
      · exact absurd ((hinv k).mpr ha) hk
    rw [decide_eq_false hk, hc]

theorem processEvent_nonkey (mk : List Nat) (cs : List (List (Nat × Nat)))
    (e : InputEvent) (h : ¬e.etype = EV_KEY) :
    processEvent mk cs e = ([], [e]) := by
  simp [processEvent, h]

theorem processEvent_unclaimed (mk : List Nat) (cs : List (List (Nat × Nat)))
    (e : InputEvent) (h1 : e.etype = EV_KEY) (h2 : e.code ∉ mk) :
    processEvent mk cs e = ([], [e]) := by
  obtain ⟨t, c, v⟩ := e
  simp only at h1 h2
  subst h1
  simp [processEvent, h2]

theorem processEvent_claimed (mk : List Nat) (cs : List (List (Nat × Nat)))
    (e : InputEvent) (h1 : e.etype = EV_KEY) (h2 : e.code ∈ mk) :
    processEvent mk cs e = (controllerEmissionsFrom 0 cs e.code e.value, []) := by
  simp [processEvent, h1, h2]

theorem dispatch_characterization (mk : List Nat) (cs : List (List (Nat × Nat)))
    (evs : List InputEvent) :
    (dispatchEvents mk cs evs).2 = evs.filter (fun e => !claimedEvent mk e) ∧
    (dispatchEvents mk cs evs).1 =
      (dispatchEvents mk cs (evs.filter (claimedEvent mk))).1 := by
  induction evs with
  | nil => exact ⟨rfl, rfl⟩
  | cons e rest ih =>
      by_cases h1 : e.etype = EV_KEY
      · by_cases h2 : e.code ∈ mk
        · have hc : claimedEvent mk e = true := by
            simp [claimedEvent, h1, h2]
          simp [dispatchEvents, processEvent_claimed mk cs e h1 h2,
            List.filter_cons, hc, ih.1, ih.2]
        · have hc : claimedEvent mk e = false := by
            simp [claimedEvent, h2]
          simp [dispatchEvents, processEvent_unclaimed mk cs e h1 h2,
            List.filter_cons, hc, ih.1, ih.2]
      · have hc : claimedEvent mk e = false := by
          simp [claimedEvent, h1]
        simp [dispatchEvents, processEvent_nonkey mk cs e h1,
          List.filter_cons, hc, ih.1, ih.2]

/-!
## Claim theorems
-/

/-- C1: the claim says the worker invokes `release()` (ungrab) before
returning on every exit path after a successful `grab()`. The code
violates this: the `?` on `fetch_events` (mapping.rs:145) — like the `?`
on each sink emit — leaves the worker closure before the `ungrab()` call
at mapping.rs:178, which is only reached on the normal loop exits. This
theorem evaluates the worker at the failing input: open and grab succeed,
then `fetch_events` returns an error — the worker's result is the
propagated error and `ungrab()` was never executed — and contrasts it with
a cancellation exit, where `ungrab()` does run. -/
theorem c1_io_error_skips_ungrab :
    worker true true exStarted.mapped_keys (workerControllers exSnap)
        [LoopEvent.fetchErr] =
      { resultOk := false, ungrab_called := false, ctrl := [], kbd := [] } ∧
    worker true true exStarted.mapped_keys (workerControllers exSnap)
        [LoopEvent.signal] =
      { resultOk := true, ungrab_called := true, ctrl := [], kbd := [] } := by
  exact ⟨rfl, rfl⟩

/-- C2 counterexample: with "Controller 1" registered, `start_mapping`
returns the worker handle (`.ok`) before acquisition is even attempted,
and after the worker fails to grab the device (grabOk = false) the shared
`running` flag is still `true`: the session has not returned to Idle and
the acquisition error was never surfaced through the return value of
`start_mapping`, refuting the claim at this concrete input. -/
theorem c2_counterexample :
    start_mapping exMapper = .ok (exStarted, exSnap) ∧
    exStarted.running = true ∧
    worker true false exStarted.mapped_keys (workerControllers exSnap) [] =
      { resultOk := false, ungrab_called := false, ctrl := [], kbd := [] } := by
  exact ⟨rfl, rfl, rfl⟩

/-- C2 (amended): if acquisition of the physical device fails, the worker
thread exits at once with the error and performs no dispatch, so no worker
is left running; but the error is surfaced only through the worker's join
handle — `start_mapping` itself has already returned `.ok` and set the
shared `running` flag, which stays `true` (the session does not return to
Idle) until `stop_mapping` clears it. -/
theorem c2_amended (m : DeviceMapperState) (h : m.controllers ≠ [])
    (mk : List Nat) (cs : List (List (Nat × Nat))) (script : List LoopEvent) :
    (∃ m₁ snap, start_mapping m = .ok (m₁, snap) ∧ m₁.running = true ∧
      (stop_mapping m₁).running = false) ∧
    worker true false mk cs script =
      { resultOk := false, ungrab_called := false, ctrl := [], kbd := [] } := by
  refine ⟨⟨{ m with running := true },
    ⟨m.controllers.map (fun c => (c.name, c.key_mapping))⟩, ?_, rfl, rfl⟩, rfl⟩
  unfold start_mapping
  rw [if_neg]
  rw [List.isEmpty_iff]
  exact h

/-- Witness for `c2_amended` at the concrete one-controller mapper. -/
theorem c2_amended_witness :
    (∃ m₁ snap, start_mapping exMapper = .ok (m₁, snap) ∧ m₁.running = true ∧
      (stop_mapping m₁).running = false) ∧
    worker true false exStarted.mapped_keys (workerControllers exSnap) [] =
      { resultOk := false, ungrab_called := false, ctrl := [], kbd := [] } :=
  c2_amended exMapper (by decide) exStarted.mapped_keys (workerControllers exSnap) []

/-- C3 counterexample: `start_mapping` performs no AlreadyRunning check.
Called on a state whose session is already Running (running flag true,
one controller registered), it succeeds and hands out a fresh worker
snapshot instead of failing with an AlreadyRunning error. -/
theorem c3_counterexample :
    exRunning.running = true ∧
    start_mapping exRunning = .ok (exRunning, exSnap) := by
  exact ⟨rfl, rfl⟩

/-- C3 (amended): `start_mapping` fails — with the NoControllers error —
exactly when zero controllers are registered, and in that case it returns
before touching any state or spawning anything; whenever at least one
controller is registered it succeeds regardless of the running flag
(there is no AlreadyRunning check), setting the flag and handing the
snapshot to a newly spawned worker. -/
theorem c3_amended (m : DeviceMapperState) :
    (start_mapping m = .error .NoControllers ↔ m.controllers = []) ∧
    (m.controllers ≠ [] →
      start_mapping m = .ok ({ m with running := true },
        ⟨m.controllers.map (fun c => (c.name, c.key_mapping))⟩)) := by
  cases hc : m.controllers with
  | nil => simp [start_mapping, hc]
  | cons a l => simp [start_mapping, hc]

/-- Witness for `c3_amended`: the empty mapper fails with NoControllers;
the one-controller mapper starts even though it is already running. -/
theorem c3_amended_witness :
    start_mapping DeviceMapper_new = .error .NoControllers ∧
    start_mapping exRunning = .ok ({ exRunning with running := true },
      ⟨exRunning.controllers.map (fun c => (c.name, c.key_mapping))⟩) :=
  ⟨(c3_amended DeviceMapper_new).1.mpr rfl,
   (c3_amended exRunning).2 (by decide)⟩

/-- C4: the claim says a press of a mapped key K (here KEY_W=17, mapped to
BTN_DPAD_UP=544 by "Controller 1"'s default mapping) produces
`emit(544, 1)` on the controller sink and nothing on the keyboard sink.
The code drops the event entirely: the dispatch loop resolves
17 -> 544 and then calls `handle_key_event(544, value)`
(mapping.rs:151-159), which looks 544 up in the same source-to-target
mapping (controller.rs:87), misses, and silently emits nothing. Evaluating
the session at the failing input: both the controller trace and the
keyboard trace are empty — no `emit(544, 1)` ever happens. -/
theorem c4_mapped_key_is_dropped :
    start_mapping exMapper = .ok (exStarted, exSnap) ∧
    lookupKey apply_default_mapping 17 = some 544 ∧
    dispatchEvents exStarted.mapped_keys (workerControllers exSnap)
      [⟨EV_KEY, 17, 1⟩] = ([], []) := by
  exact ⟨rfl, rfl, rfl⟩

/-- C6: the claim says a key claimed by two controllers produces an
emission on every claiming controller's sink. With KEY_W=17 claimed by
"Controller 1" (17 -> 544) and "Controller 2" (17 -> 304), a press of 17
produces no emission on either sink, for the same reason as C4: each
controller's reaction re-looks-up the already-translated target button in
its source-to-target mapping and misses. -/
theorem c6_fanout_is_dropped :
    start_mapping exMapperTwo = .ok ({ exMapperTwo with running := true }, exSnapTwo) ∧
    lookupKey [(17, 544)] 17 = some 544 ∧
    lookupKey [(17, 304)] 17 = some 304 ∧
    dispatchEvents exMapperTwo.mapped_keys (workerControllers exSnapTwo)
      [⟨EV_KEY, 17, 1⟩] = ([], []) := by
  exact ⟨rfl, rfl, rfl, rfl⟩

/-- C5: in a running session started from a mapper whose `mapped_keys`
set agrees with its controllers' mappings (the invariant `add_controller`
maintains), the keyboard sink receives exactly the events that are
non-key events or key events no registered controller's mapping claims —
verbatim, with type, code and value intact and in stream order — and the
controller sinks' trace is exactly that of the claimed key events alone,
so unclaimed and non-key events produce no controller emission. -/
theorem c5_passthrough (m m₁ : DeviceMapperState) (snap : SessionSnapshot)
    (hinv : mapperInvariant m) (hstart : start_mapping m = .ok (m₁, snap))
    (evs : List InputEvent) :
    (dispatchEvents m₁.mapped_keys (workerControllers snap) evs).2 =
      evs.filter (fun e =>
        !(decide (e.etype = EV_KEY) && anyControllerClaims m.controllers e.code)) ∧
    (dispatchEvents m₁.mapped_keys (workerControllers snap) evs).1 =
      (dispatchEvents m₁.mapped_keys (workerControllers snap)
        (evs.filter (fun e =>
          decide (e.etype = EV_KEY) && anyControllerClaims m.controllers e.code))).1 := by
  have hm : m₁.mapped_keys = m.mapped_keys := by
    unfold start_mapping at hstart
    split at hstart
    · exact absurd hstart (by simp)
    · simp only [Except.ok.injEq, Prod.mk.injEq] at hstart
      rw [← hstart.1]
  have hpred : ∀ e : InputEvent,
      claimedEvent m.mapped_keys e =
        (decide (e.etype = EV_KEY) && anyControllerClaims m.controllers e.code) := by
    intro e
    unfold claimedEvent
    rw [claimed_decide m hinv]
  rw [hm]
  obtain ⟨hkbd, hctrl⟩ :=
    dispatch_characterization m.mapped_keys (workerControllers snap) evs
  constructor
  · rw [hkbd]
    simp only [hpred]
  · rw [hctrl, funext hpred]

/-- Witness for `c5_passthrough`: "Controller 1" with the default
mapping; a press of unmapped KEY_1=2 followed by a SYN event. -/
theorem c5_witness :
    (dispatchEvents exStarted.mapped_keys (workerControllers exSnap)
        [⟨EV_KEY, 2, 1⟩, ⟨0, 0, 0⟩]).2 =
      [(⟨EV_KEY, 2, 1⟩ : InputEvent), ⟨0, 0, 0⟩].filter
        (fun e =>
          !(decide (e.etype = EV_KEY) &&
            anyControllerClaims exMapper.controllers e.code)) ∧
    (dispatchEvents exStarted.mapped_keys (workerControllers exSnap)
        [⟨EV_KEY, 2, 1⟩, ⟨0, 0, 0⟩]).1 =
      (dispatchEvents exStarted.mapped_keys (workerControllers exSnap)
        ([(⟨EV_KEY, 2, 1⟩ : InputEvent), ⟨0, 0, 0⟩].filter
          (fun e =>
            decide (e.etype = EV_KEY) &&
              anyControllerClaims exMapper.controllers e.code))).1 :=
  c5_passthrough exMapper exStarted exSnap
    (mapperInvariant_add DeviceMapper_new controller1 mapperInvariant_new) rfl
    [⟨EV_KEY, 2, 1⟩, ⟨0, 0, 0⟩]

/-- C7: once `start_mapping` has taken its snapshot, mutating a
registered controller's mapping in the live mapper state changes nothing
the worker observes: the session's outputs on any physical event stream
are identical with and without the post-start mutation (snapshot
isolation). The worker dispatches from the cloned `controller_settings`
and the shared `mapped_keys` set, and a mapping mutation touches
neither. -/
theorem c7_snapshot_isolation (m m₁ : DeviceMapperState) (snap : SessionSnapshot)
    (_hstart : start_mapping m = .ok (m₁, snap)) (i src tgt : Nat)
    (evs : List InputEvent) :
    sessionOutputs (mutate_controller_mapping m₁ i src tgt) snap evs =
      sessionOutputs m₁ snap evs := rfl

/-- Witness for `c7_snapshot_isolation`: map KEY_P=25 to BTN_SOUTH=304 on
"Controller 1" after start; the running session's outputs on a W press
and a press of 2 are unchanged. -/
theorem c7_witness :
    sessionOutputs (mutate_controller_mapping exStarted 0 25 304) exSnap
        [⟨EV_KEY, 17, 1⟩, ⟨EV_KEY, 2, 1⟩] =
      sessionOutputs exStarted exSnap [⟨EV_KEY, 17, 1⟩, ⟨EV_KEY, 2, 1⟩] :=
  c7_snapshot_isolation exMapper exStarted exSnap rfl 0 25 304
    [⟨EV_KEY, 17, 1⟩, ⟨EV_KEY, 2, 1⟩]

/-- C8: when the capture procedure returns a key, the event stream
contains a key event with value exactly 1 (a press — never a release 0
or an auto-repeat 2) whose code is the returned key, and one prompt step
of `map_controller_buttons` records `source_key -> target_button` in the
controller's mapping for the prompted button. -/
theorem c8_capture_press (evs : List InputEvent) (k : Nat)
    (h : capture_key evs = some k) :
    (∃ e ∈ evs, e.etype = EV_KEY ∧ e.value = 1 ∧ e.code = k) ∧
    (∀ (button_code : Nat) (label : String) (bs : List (Nat × String))
        (ss : List (List InputEvent)) (mapping : List (Nat × Nat)),
      map_controller_buttons ((button_code, label) :: bs) (evs :: ss) mapping =
        map_controller_buttons bs ss (insertKey mapping k button_code)) := by
  have hck := h
  unfold capture_key at h
  cases hf : evs.find? (fun e => e.etype == EV_KEY && e.value == 1) with
  | none =>
      rw [hf] at h
      exact absurd h (by simp)
  | some e =>
      rw [hf] at h
      have hcode : e.code = k := by
        simpa using h
      have hmem := List.mem_of_find?_eq_some hf
      have hp := List.find?_some hf
      simp only [Bool.and_eq_true, beq_iff_eq] at hp
      refine ⟨⟨e, hmem, hp.1, hp.2, hcode⟩, ?_⟩
      intro button_code label bs ss mapping
      have hstep : map_controller_buttons ((button_code, label) :: bs) (evs :: ss)
          mapping =
          match capture_key evs with
          | some key_code =>
              map_controller_buttons bs ss (insertKey mapping key_code button_code)
          | none => none := rfl
      rw [hstep, hck]

/-- Witness for `c8_capture_press`: the stream release-W, MSC event,
repeat-W, press-J returns KEY_J=36, and one prompt step for the A button
(BTN_SOUTH=304) records 36 -> 304. -/
theorem c8_witness :
    (∃ e ∈ exCaptureStream, e.etype = EV_KEY ∧ e.value = 1 ∧ e.code = 36) ∧
    (∀ (button_code : Nat) (label : String) (bs : List (Nat × String))
        (ss : List (List InputEvent)) (mapping : List (Nat × Nat)),
      map_controller_buttons ((button_code, label) :: bs) (exCaptureStream :: ss)
          mapping =
        map_controller_buttons bs ss (insertKey mapping 36 button_code)) :=
  c8_capture_press exCaptureStream 36 (by decide)

/-- C9: for a key code absent from a controller's mapping,
`handle_key_event` returns `Ok(())` and emits nothing on the controller's
device, for every value — a lookup miss is a silent no-op, never an
error. -/
theorem c9_miss_is_silent (mapping : List (Nat × Nat)) (k : Nat)
    (h : lookupKey mapping k = none) (v : Int) (emitOk : Bool) :
    handle_key_event_r mapping k v emitOk = .ok [] ∧
    handle_key_event mapping k v = [] := by
  unfold handle_key_event_r handle_key_event
  rw [h]
  exact ⟨rfl, rfl⟩

/-- Witness for `c9_miss_is_silent`: KEY_T=20 is not in the default
mapping. -/
theorem c9_witness :
    handle_key_event_r apply_default_mapping 20 1 true = .ok [] ∧
    handle_key_event apply_default_mapping 20 1 = [] :=
  c9_miss_is_silent apply_default_mapping 20 (by decide) 1 true

/-- C10: `is_keyboard` holds exactly when the device reports a key set
containing left Ctrl (29), left Shift (42) and left Alt (56);
`discover_keyboards` returns exactly the qualifying devices and fails
with `NoKeyboardsFound` exactly when no enumerated device qualifies. -/
theorem c10_discovery :
    (∀ d : EnumeratedDevice, is_keyboard d = true ↔
      ∃ ks, d.supported_keys = some ks ∧ 29 ∈ ks ∧ 42 ∈ ks ∧ 56 ∈ ks) ∧
    (∀ devs : List EnumeratedDevice,
      discover_keyboards devs =
        if (devs.filter is_keyboard).isEmpty then .error .NoKeyboardsFound
        else .ok (devs.filter is_keyboard)) ∧
    (∀ devs : List EnumeratedDevice,
      discover_keyboards devs = .error .NoKeyboardsFound ↔
        ∀ d ∈ devs, is_keyboard d = false) := by
  refine ⟨?_, fun _ => rfl, ?_⟩
  · intro d
    cases hd : d.supported_keys with
    | none => simp [is_keyboard, hd]
    | some keys =>
        by_cases h1 : (29 : Nat) ∈ keys <;> by_cases h2 : (42 : Nat) ∈ keys <;>
          by_cases h3 : (56 : Nat) ∈ keys <;>
          simp [is_keyboard, hd, modifier_count, essential_modifiers, h1, h2, h3]
  · intro devs
    unfold discover_keyboards
    by_cases he : (devs.filter is_keyboard).isEmpty
    · rw [if_pos he]
      constructor
      · intro _ d hd
        have hnil : devs.filter is_keyboard = [] := List.isEmpty_iff.mp he
        have hne := List.filter_eq_nil_iff.mp hnil d hd
        simpa using hne
      · intro _
        rfl
    · rw [if_neg he]
      constructor
      · intro hcon
        exact absurd hcon (by simp)
      · intro hall
        exact absurd (List.isEmpty_iff.mpr
          (List.filter_eq_nil_iff.mpr (fun d hd => by rw [hall d hd]; simp))) he

/-- Witness for `c10_discovery`: a device carrying all three modifiers is
a keyboard; a device missing left Alt yields `NoKeyboardsFound`; mixed
enumeration returns exactly the qualifying device. -/
theorem c10_witness :
    is_keyboard ⟨some [29, 42, 56, 17]⟩ = true ∧
    discover_keyboards [⟨some [29, 42]⟩] = .error .NoKeyboardsFound ∧
    discover_keyboards [⟨some [29, 42, 56, 17]⟩, ⟨none⟩] =
      .ok [⟨some [29, 42, 56, 17]⟩] :=
  ⟨(c10_discovery.1 _).mpr ⟨[29, 42, 56, 17], rfl, by decide, by decide, by decide⟩,
   (c10_discovery.2.2 _).mpr (by decide),
   (c10_discovery.2.1 _).trans (by decide)⟩
